import Mathlib

/-!
Verification of the golang-mvp-otel repository: a two-service pipeline
(Front Gateway `service-a`, Resolver `service-b`) that validates a CEP
(Brazilian postal code), resolves it to a city via ViaCEP, fetches weather
via WeatherAPI (or a mock when no credential is configured), and converts
the temperature to three scales.

Shallow embedding conventions:
* Go `float64` values are modelled as exact rationals (`ℚ`); the arithmetic in
  the repository (multiplication by 1.8, additions of 32 and 273.15) is
  modelled exactly.
* Go strings are modelled as Lean `String` (sequences of unicode scalars,
  matching Go's rune view used by `regexp`).
* Each outbound HTTP call is modelled by an explicit outcome parameter
  (`HTTPOutcome`): the network either fails, or yields a status code together
  with a body that either decodes to the expected Go struct or fails to decode.
* `os.Getenv` is modelled as a `String` parameter, `""` meaning unset.
-/

namespace GolangMvpOtel

/-- Model of Go's `regexp` character class `\d` (ASCII decimal digit rune). -/
def digitClass (c : Char) : Bool :=
  '0' ≤ c && c ≤ '9'

/-- Matcher for the anchored pattern `\d{n}` against a rune list: the whole
list must be exactly `n` runes, each in the `\d` class.  Instantiated at
`n = 8` this is Go's `regexp.MatchString` of the anchored `\d{8}` pattern
(in Go, `^`/`$` without the multiline flag anchor at the ends of the text). -/
def matchDigits : Nat → List Char → Bool
  | 0, [] => true
  | 0, _ :: _ => false
  | _ + 1, [] => false
  | n + 1, c :: cs => digitClass c && matchDigits n cs

namespace ServiceA

/-- `isValidCEP` from `service-a/main.go`: `regexp.MatchString` of the
anchored eight-digit pattern against the CEP string. -/
def isValidCEP (cep : String) : Bool :=
  matchDigits 8 cep.data

end ServiceA

namespace ServiceB

/-- `isValidCEP` from the Resolver (`service-b`): textually identical to the
Gateway's validator. -/
def isValidCEP (cep : String) : Bool :=
  matchDigits 8 cep.data

/-- `celsiusToFahrenheit` from the Resolver: `celsius*1.8 + 32`. -/
def celsiusToFahrenheit (celsius : ℚ) : ℚ :=
  celsius * 1.8 + 32

/-- `celsiusToKelvin` from the Resolver: `celsius + 273.15`. -/
def celsiusToKelvin (celsius : ℚ) : ℚ :=
  celsius + 273.15

end ServiceB

/-- Model of a JSON value, the possible results of parsing a request body
that is syntactically valid JSON. -/
inductive JSONVal where
  | null
  | bool (b : Bool)
  | num (q : ℚ)
  | str (s : String)
  | arr (elems : List JSONVal)
  | obj (fields : List (String × JSONVal))

/-- ASCII lowercasing of a single character (A–Z mapped to a–z, everything
else unchanged). -/
def asciiLower (c : Char) : Char :=
  if 'A' ≤ c ∧ c ≤ 'Z' then Char.ofNat (c.toNat + 32) else c

/-- Go's `encoding/json` matches a JSON object key against the struct tag
`cep` preferring an exact match but also accepting a case-insensitive match
(`strings.EqualFold`, Unicode simple case folding).  For the letters c, e
and p, simple case folding coincides with ASCII folding — no further code
point folds onto any of them (unlike, say, k and the Kelvin sign) — so the
match is: the key, ASCII-lowercased, is exactly "cep". -/
def matchesCEPField (k : String) : Bool :=
  k.data.map asciiLower == ['c', 'e', 'p']

/-- One pass over the keys of a decoded JSON object, in order, decoding
into the `cep` field of `CEPRequest` (accumulator = the field's current
value, initially the zero value): a matching key with a string value
overwrites the field (so the last matching key wins), a matching key with
JSON null leaves the field unchanged, a matching key with any other value
is a type error — Go saves the first such error and keeps decoding, and the
`Decode` call then returns non-nil — and non-matching keys are ignored. -/
def decodeCEPFields : List (String × JSONVal) → String → Option String
  | [], acc => some acc
  | (k, v) :: rest, acc =>
    if matchesCEPField k then
      match v with
      | .str s => decodeCEPFields rest s
      | .null => decodeCEPFields rest acc
      | _ => none
    else decodeCEPFields rest acc

/-- Model of `json.NewDecoder(r.Body).Decode(&req)` for `CEPRequest`
(a struct with the single tagged string field `cep`).  The input is `none`
when the body is not syntactically valid JSON (decode error), otherwise the
parsed JSON value.  Decoding succeeds with the zero value `""` on a JSON
top-level `null`; on an object it folds over the fields with
`decodeCEPFields`; it fails on any other top level. -/
def decodeCEPRequest : Option JSONVal → Option String
  | none => none
  | some .null => some ""
  | some (.obj fields) => decodeCEPFields fields ""
  | some _ => none

/-- Outcome of one outbound HTTP round-trip whose successful body decodes to
`α`: either the transport fails (`client.Do` returns an error, covering
connection failures and timeouts), or a response arrives with a status code
and a body that either decodes to `α` or fails to decode (`none`). -/
inductive HTTPOutcome (α : Type) where
  | netError
  | response (status : Nat) (decoded : Option α)

namespace ServiceB

/-- The `WeatherResponse` struct of the Resolver (JSON fields `city`,
`temp_C`, `temp_F`, `temp_K`). -/
structure WeatherResponse where
  city : String
  tempC : ℚ
  tempF : ℚ
  tempK : ℚ
deriving DecidableEq

/-- The fields of the Go `ViaCEPResponse` struct that the program reads:
`Localidade` (the city name) and the explicit not-found flag `Erro`.  The
other eight string fields are decoded but never read. -/
structure ViaCEPResponse where
  localidade : String
  erro : Bool
deriving DecidableEq

/-- The fields of the Go `WeatherAPIResponse` struct: the provider's
location name and its Celsius and Fahrenheit readings (the Fahrenheit
reading is decoded but never used by the program). -/
structure WeatherAPIResponse where
  locationName : String
  tempC : ℚ
  tempF : ℚ
deriving DecidableEq

/-- `getLocationFromCEP` from the Resolver, as a function of the outcome of
the ViaCEP round-trip.  Transport failure and a non-200 status produce
descriptive error strings; a body that fails to decode and a decoded body
with the `erro` flag set both produce the error string
"can not find zipcode"; otherwise the `localidade` field is returned. -/
def getLocationFromCEP (viaCEP : HTTPOutcome ViaCEPResponse) :
    Except String String :=
  match viaCEP with
  | .netError => .error "failed to make request to ViaCEP"
  | .response status decoded =>
    if status ≠ 200 then
      .error ("ViaCEP returned status " ++ toString status)
    else
      match decoded with
      | none => .error "can not find zipcode"
      | some viaCEPResp =>
        if viaCEPResp.erro then .error "can not find zipcode"
        else .ok viaCEPResp.localidade

/-- `getWeatherFromAPI` from the Resolver.  `weatherAPIKey` models
`os.Getenv("WEATHER_API_KEY")` (`""` when unset).  When the key is unset or
equals the placeholder, the function returns mock data built from 22.5 °C
without looking at the outcome of any WeatherAPI round-trip; otherwise the
round-trip outcome decides: transport failure, non-200 status and decode
failure are errors, and a decoded body yields a `WeatherResponse` whose
Fahrenheit and Kelvin fields are recomputed from the provider's Celsius
reading. -/
def getWeatherFromAPI (weatherAPIKey : String) (location : String)
    (weatherAPI : HTTPOutcome WeatherAPIResponse) :
    Except String WeatherResponse :=
  if weatherAPIKey = "" ∨ weatherAPIKey = "your_weather_api_key_here" then
    .ok { city := location, tempC := 22.5,
          tempF := celsiusToFahrenheit 22.5, tempK := celsiusToKelvin 22.5 }
  else
    match weatherAPI with
    | .netError => .error "failed to make request to WeatherAPI"
    | .response status decoded =>
      if status ≠ 200 then
        .error ("WeatherAPI returned status " ++ toString status)
      else
        match decoded with
        | none => .error "failed to decode WeatherAPI response"
        | some weatherResp =>
          .ok { city := weatherResp.locationName, tempC := weatherResp.tempC,
                tempF := celsiusToFahrenheit weatherResp.tempC,
                tempK := celsiusToKelvin weatherResp.tempC }

/-- Body of an HTTP reply written by the Resolver: an `ErrorResponse` JSON
object, an encoded `WeatherResponse`, or the plain text written by
`http.Error`. -/
inductive RespBody where
  | errJSON (message : String)
  | weatherJSON (w : WeatherResponse)
  | text (s : String)
deriving DecidableEq

/-- An HTTP reply as written by the Resolver: status code, the value of the
Content-Type header, and the body. -/
structure HTTPReply where
  status : Nat
  contentType : String
  body : RespBody
deriving DecidableEq

/-- `writeErrorResponse` from the Resolver: JSON content type, the given
status code, and an `ErrorResponse` body with the given message. -/
def writeErrorResponse (message : String) (statusCode : Nat) : HTTPReply :=
  { status := statusCode, contentType := "application/json",
    body := .errJSON message }

/-- Result of one run of the weather handler: the reply written, plus
whether the handler reached the call to `getWeatherFromAPI`. -/
structure WeatherHandlerResult where
  reply : HTTPReply
  weatherLookupInvoked : Bool
deriving DecidableEq

/-- `handleWeather` from the Resolver, as a function of the request method,
the parsed request body, the outcome of the ViaCEP round-trip, the weather
credential and the outcome of the WeatherAPI round-trip.  Mirrors the
source: method check, body decode (400 on failure), CEP validation (422),
location lookup (404 when the error message is "CEP not found" or
"can not find zipcode", 500 otherwise), weather lookup (500 on any error),
then a 200 reply encoding the `WeatherResponse`. -/
def handleWeather (method : String) (rawBody : Option JSONVal)
    (viaCEP : HTTPOutcome ViaCEPResponse)
    (weatherAPIKey : String) (weatherAPI : HTTPOutcome WeatherAPIResponse) :
    WeatherHandlerResult :=
  if method ≠ "POST" then
    { reply := { status := 405, contentType := "text/plain; charset=utf-8",
                 body := .text "Method not allowed\n" },
      weatherLookupInvoked := false }
  else
    match decodeCEPRequest rawBody with
    | none =>
      { reply := writeErrorResponse "invalid request body" 400,
        weatherLookupInvoked := false }
    | some cep =>
      if ¬ isValidCEP cep then
        { reply := writeErrorResponse "invalid zipcode" 422,
          weatherLookupInvoked := false }
      else
        match getLocationFromCEP viaCEP with
        | .error msg =>
          if msg = "CEP not found" ∨ msg = "can not find zipcode" then
            { reply := writeErrorResponse "can not find zipcode" 404,
              weatherLookupInvoked := false }
          else
            { reply := writeErrorResponse "internal server error" 500,
              weatherLookupInvoked := false }
        | .ok location =>
          match getWeatherFromAPI weatherAPIKey location weatherAPI with
          | .error _ =>
            { reply := writeErrorResponse "internal server error" 500,
              weatherLookupInvoked := true }
          | .ok weather =>
            { reply := { status := 200, contentType := "application/json",
                         body := .weatherJSON weather },
              weatherLookupInvoked := true }

end ServiceB

namespace ServiceA

/-- A response of the Resolver as observed by the Gateway's HTTP client:
status code, Content-Type header, and the raw body bytes read by
`io.ReadAll`. -/
structure ResolverResponse where
  status : Nat
  contentType : String
  body : String
deriving DecidableEq

/-- Body of an HTTP reply written by the Gateway: an `ErrorResponse` JSON
object, the relayed raw bytes of a Resolver response, or the plain text
written by `http.Error`. -/
inductive GatewayBody where
  | errJSON (message : String)
  | relayed (bytes : String)
  | text (s : String)
deriving DecidableEq

/-- An HTTP reply as written by the Gateway: status code, the value of the
Content-Type header, and the body. -/
structure GatewayReply where
  status : Nat
  contentType : String
  body : GatewayBody
deriving DecidableEq

/-- `writeErrorResponse` from the Gateway (textually identical to the
Resolver's). -/
def writeErrorResponse (message : String) (statusCode : Nat) : GatewayReply :=
  { status := statusCode, contentType := "application/json",
    body := .errJSON message }

/-- The response-copying tail of `forwardToServiceB` (lines 181–192 of
`service-a/main.go`): the Gateway sets the Content-Type header to the
literal "application/json", writes the Resolver's status code, and copies
the Resolver's body bytes unchanged. -/
def forwardToServiceB (resp : ResolverResponse) : GatewayReply :=
  { status := resp.status, contentType := "application/json",
    body := .relayed resp.body }

/-- Result of one run of the Gateway handler: the reply written, plus
whether the handler issued the downstream call to the Resolver. -/
structure GatewayResult where
  reply : GatewayReply
  forwarded : Bool
deriving DecidableEq

/-- `handleCEP` from the Gateway, as a function of the request method, the
parsed request body and the outcome of the downstream call (`none` models a
transport failure of the call to the Resolver).  Mirrors the source: method
check, body decode (400 on failure), CEP validation (422), then forwarding
with a 500 error reply when the downstream call fails. -/
def handleCEP (method : String) (rawBody : Option JSONVal)
    (downstream : Option ResolverResponse) : GatewayResult :=
  if method ≠ "POST" then
    { reply := { status := 405, contentType := "text/plain; charset=utf-8",
                 body := .text "Method not allowed\n" },
      forwarded := false }
  else
    match decodeCEPRequest rawBody with
    | none =>
      { reply := writeErrorResponse "invalid request body" 400,
        forwarded := false }
    | some cep =>
      if ¬ isValidCEP cep then
        { reply := writeErrorResponse "invalid zipcode" 422,
          forwarded := false }
      else
        match downstream with
        | none =>
          { reply := writeErrorResponse "internal server error" 500,
            forwarded := true }
        | some resp => { reply := forwardToServiceB resp, forwarded := true }

end ServiceA

/-- Auxiliary characterisation of the digit matcher. -/
theorem matchDigits_eq_true_iff (n : Nat) (cs : List Char) :
    matchDigits n cs = true ↔ cs.length = n ∧ ∀ c ∈ cs, digitClass c = true := by
  induction cs generalizing n with
  | nil =>
    cases n with
    | zero => simp [matchDigits]
    | succ n => simp [matchDigits]
  | cons c cs ih =>
    cases n with
    | zero => simp [matchDigits]
    | succ n =>
      simp only [matchDigits, Bool.and_eq_true, ih, List.length_cons,
        Nat.succ.injEq, List.mem_cons]
      constructor
      · rintro ⟨hc, hlen, hall⟩
        exact ⟨hlen, fun x hx => hx.elim (fun h => h ▸ hc) (hall x)⟩
      · rintro ⟨hlen, hall⟩
        exact ⟨hall c (Or.inl rfl), hlen, fun x hx => hall x (Or.inr hx)⟩

/-- Helper: the error message built for a non-200 ViaCEP status differs from
both strings that the weather handler treats as the not-found signal (they
do not even share a first character). -/
theorem viaCEPStatusMsg_ne (t : String) :
    ("ViaCEP returned status " ++ t) ≠ "CEP not found" ∧
    ("ViaCEP returned status " ++ t) ≠ "can not find zipcode" := by
  constructor <;> intro h
  · have hd : ("ViaCEP returned status " ++ t).data.head? =
        ("CEP not found" : String).data.head? := by rw [h]
    have hl : ("ViaCEP returned status " ++ t).data.head? = some 'V' := rfl
    rw [hl] at hd
    exact absurd hd (by decide)
  · have hd : ("ViaCEP returned status " ++ t).data.head? =
        ("can not find zipcode" : String).data.head? := by rw [h]
    have hl : ("ViaCEP returned status " ++ t).data.head? = some 'V' := rfl
    rw [hl] at hd
    exact absurd hd (by decide)

/-- Helper: every successful result of the weather lookup has its Fahrenheit
and Kelvin fields computed from its Celsius field by the two conversion
functions (this holds in both the mock branch and the real-provider
branch). -/
theorem getWeatherFromAPI_ok_inv (key loc : String)
    (o : HTTPOutcome ServiceB.WeatherAPIResponse) (w : ServiceB.WeatherResponse)
    (h : ServiceB.getWeatherFromAPI key loc o = .ok w) :
    w.tempF = ServiceB.celsiusToFahrenheit w.tempC ∧
    w.tempK = ServiceB.celsiusToKelvin w.tempC := by
  unfold ServiceB.getWeatherFromAPI at h
  split at h
  · injection h with h
    subst h
    exact ⟨rfl, rfl⟩
  · cases o with
    | netError => simp at h
    | response s d =>
      simp only [] at h
      split at h
      · simp at h
      · cases d with
        | none => simp at h
        | some resp =>
          injection h with h
          subst h
          exact ⟨rfl, rfl⟩

/-- Helper: with a real credential configured, a transport failure, a
non-200 status and a decode failure of the WeatherAPI round-trip all make
the weather lookup return an error. -/
theorem getWeatherFromAPI_fails (key loc : String)
    (o : HTTPOutcome ServiceB.WeatherAPIResponse)
    (hkey : ¬(key = "" ∨ key = "your_weather_api_key_here"))
    (hfail : o = .netError ∨ ∃ s d, o = .response s d ∧ (s ≠ 200 ∨ d = none)) :
    ∃ msg, ServiceB.getWeatherFromAPI key loc o = .error msg := by
  unfold ServiceB.getWeatherFromAPI
  rw [if_neg hkey]
  rcases hfail with hne | ⟨s, d, rfl, hsd⟩
  · subst hne
    exact ⟨_, rfl⟩
  · by_cases hs : s = 200
    · subst hs
      rcases hsd with hs | hd
      · exact absurd rfl hs
      · subst hd
        exact ⟨_, rfl⟩
    · exact ⟨"WeatherAPI returned status " ++ toString s, by simp [hs]⟩

/-- Helper: every reply the weather handler writes for a POST request
carries the Content-Type header value "application/json". -/
theorem handleWeather_post_contentType (rawBody : Option JSONVal)
    (viaCEP : HTTPOutcome ServiceB.ViaCEPResponse) (weatherAPIKey : String)
    (wAPI : HTTPOutcome ServiceB.WeatherAPIResponse) :
    (ServiceB.handleWeather "POST" rawBody viaCEP weatherAPIKey wAPI).reply.contentType =
      "application/json" := by
  unfold ServiceB.handleWeather
  rw [if_neg (by decide)]
  repeat' split
  all_goals rfl

/-- C1: CEP validation — identical in the Gateway and the Resolver — accepts
a string if and only if it consists of exactly 8 ASCII decimal digits;
every other string (wrong length, any non-digit character, empty) is
rejected. -/
theorem isValidCEP_accepts_exactly_eight_digits (s : String) :
    ServiceA.isValidCEP s = ServiceB.isValidCEP s ∧
    (ServiceA.isValidCEP s = true ↔
      s.length = 8 ∧ ∀ c ∈ s.data, '0' ≤ c ∧ c ≤ '9') := by
  refine ⟨rfl, ?_⟩
  rw [ServiceA.isValidCEP, matchDigits_eq_true_iff]
  have hlen : s.length = s.data.length := rfl
  rw [hlen]
  constructor
  · rintro ⟨h1, h2⟩
    refine ⟨h1, fun c hc => ?_⟩
    have := h2 c hc
    simpa [digitClass, Bool.and_eq_true, decide_eq_true_iff] using this
  · rintro ⟨h1, h2⟩
    refine ⟨h1, fun c hc => ?_⟩
    have := h2 c hc
    simpa [digitClass, Bool.and_eq_true, decide_eq_true_iff] using this

/-- C2, counterexample: on a ViaCEP round-trip that returns success status
200 with a body that fails to decode (a malformed provider response), the
weather handler replies 404 "can not find zipcode" — the not-found outcome —
and not 500 "internal server error" as the claim states. -/
theorem location_decode_failure_yields_404_not_500 :
    ServiceB.handleWeather "POST" (some (.obj [("cep", .str "01001000")]))
        (.response 200 none) "" .netError =
      ⟨ServiceB.writeErrorResponse "can not find zipcode" 404, false⟩ ∧
    (ServiceB.handleWeather "POST" (some (.obj [("cep", .str "01001000")]))
        (.response 200 none) "" .netError).reply ≠
      ServiceB.writeErrorResponse "internal server error" 500 := by decide

/-- C2, amended: for a location-lookup failure that is a network error or a
non-success provider status, the weather handler replies 500
"internal server error"; a malformed (undecodable) provider response body
instead yields the not-found outcome 404 "can not find zipcode". -/
theorem location_failure_status_mapping (cep : String)
    (rawBody : Option JSONVal) (viaCEP : HTTPOutcome ServiceB.ViaCEPResponse)
    (weatherAPIKey : String) (wAPI : HTTPOutcome ServiceB.WeatherAPIResponse)
    (hbody : decodeCEPRequest rawBody = some cep)
    (hcep : ServiceB.isValidCEP cep = true)
    (hfail : viaCEP = .netError ∨ ∃ s d, viaCEP = .response s d ∧ s ≠ 200) :
    ServiceB.handleWeather "POST" rawBody viaCEP weatherAPIKey wAPI =
      ⟨ServiceB.writeErrorResponse "internal server error" 500, false⟩ ∧
    ServiceB.handleWeather "POST" rawBody (.response 200 none) weatherAPIKey wAPI =
      ⟨ServiceB.writeErrorResponse "can not find zipcode" 404, false⟩ := by
  constructor
  · unfold ServiceB.handleWeather
    rw [if_neg (by decide)]
    simp only [hbody]
    rw [if_neg (by simp [hcep])]
    rcases hfail with rfl | ⟨s, d, rfl, hs⟩
    · rfl
    · have hloceq : ServiceB.getLocationFromCEP (.response s d) =
          .error ("ViaCEP returned status " ++ toString s) := by
        simp [ServiceB.getLocationFromCEP, hs]
      simp only [hloceq]
      rw [if_neg (not_or.mpr (viaCEPStatusMsg_ne (toString s)))]
  · unfold ServiceB.handleWeather
    rw [if_neg (by decide)]
    simp only [hbody]
    rw [if_neg (by simp [hcep])]
    rfl

theorem location_failure_status_mapping_witness :
    ServiceB.handleWeather "POST" (some (.obj [("cep", .str "01001000")]))
        .netError "" .netError =
      ⟨ServiceB.writeErrorResponse "internal server error" 500, false⟩ :=
  (location_failure_status_mapping "01001000"
    (some (.obj [("cep", .str "01001000")])) .netError "" .netError
    (by decide) (by decide) (Or.inl rfl)).1

/-- C3: when the weather credential is absent (empty) or equals the
placeholder, the weather lookup ignores the outcome of any external
round-trip (its result is independent of it) and returns, for any resolved
city, a success whose city is that city, whose Celsius reading is exactly
22.5, and whose Fahrenheit and Kelvin fields are the fixed conversions of
22.5, namely 72.5 and 295.65. -/
theorem mock_weather_branch (weatherAPIKey location : String)
    (wAPI wAPI' : HTTPOutcome ServiceB.WeatherAPIResponse)
    (hkey : weatherAPIKey = "" ∨ weatherAPIKey = "your_weather_api_key_here") :
    ServiceB.getWeatherFromAPI weatherAPIKey location wAPI =
      .ok ⟨location, 22.5, 72.5, 295.65⟩ ∧
    ServiceB.celsiusToFahrenheit 22.5 = 72.5 ∧
    ServiceB.celsiusToKelvin 22.5 = 295.65 ∧
    ServiceB.getWeatherFromAPI weatherAPIKey location wAPI =
      ServiceB.getWeatherFromAPI weatherAPIKey location wAPI' := by
  have h1 : ServiceB.celsiusToFahrenheit 22.5 = 72.5 := by
    norm_num [ServiceB.celsiusToFahrenheit]
  have h2 : ServiceB.celsiusToKelvin 22.5 = 295.65 := by
    norm_num [ServiceB.celsiusToKelvin]
  have base : ∀ o : HTTPOutcome ServiceB.WeatherAPIResponse,
      ServiceB.getWeatherFromAPI weatherAPIKey location o =
        .ok ⟨location, 22.5, ServiceB.celsiusToFahrenheit 22.5,
             ServiceB.celsiusToKelvin 22.5⟩ := by
    intro o
    unfold ServiceB.getWeatherFromAPI
    rw [if_pos hkey]
  refine ⟨?_, h1, h2, ?_⟩
  · rw [base wAPI, h1, h2]
  · rw [base wAPI, base wAPI']

theorem mock_weather_branch_witness :
    ServiceB.getWeatherFromAPI "" "São Paulo" .netError =
      .ok ⟨"São Paulo", 22.5, 72.5, 295.65⟩ :=
  (mock_weather_branch "" "São Paulo" .netError .netError (Or.inl rfl)).1

/-- C4: the conversion functions satisfy Fahrenheit = Celsius × 1.8 + 32 and
Kelvin = Celsius + 273.15 for every Celsius value; in particular 25 °C maps
to 77 °F and 298.15 K, and 0 °C maps to 32 °F and 273.15 K. -/
theorem conversion_formulas (c : ℚ) :
    ServiceB.celsiusToFahrenheit c = c * 1.8 + 32 ∧
    ServiceB.celsiusToKelvin c = c + 273.15 ∧
    ServiceB.celsiusToFahrenheit 25 = 77 ∧
    ServiceB.celsiusToKelvin 25 = 298.15 ∧
    ServiceB.celsiusToFahrenheit 0 = 32 ∧
    ServiceB.celsiusToKelvin 0 = 273.15 := by
  refine ⟨rfl, rfl, ?_, ?_, ?_, ?_⟩ <;>
    norm_num [ServiceB.celsiusToFahrenheit, ServiceB.celsiusToKelvin]

/-- C5: for every valid code, when the location provider responds with
success status 200 and its explicit not-found flag set, the weather handler
replies 404 "can not find zipcode" and the weather lookup is not invoked. -/
theorem notfound_flag_yields_404 (cep location : String) (rawBody : Option JSONVal)
    (weatherAPIKey : String) (wAPI : HTTPOutcome ServiceB.WeatherAPIResponse)
    (hbody : decodeCEPRequest rawBody = some cep)
    (hcep : ServiceB.isValidCEP cep = true) :
    ServiceB.handleWeather "POST" rawBody
        (.response 200 (some ⟨location, true⟩)) weatherAPIKey wAPI =
      ⟨ServiceB.writeErrorResponse "can not find zipcode" 404, false⟩ := by
  unfold ServiceB.handleWeather
  rw [if_neg (by decide)]
  simp only [hbody]
  rw [if_neg (by simp [hcep])]
  rfl

theorem notfound_flag_yields_404_witness :
    ServiceB.handleWeather "POST" (some (.obj [("cep", .str "99999999")]))
        (.response 200 (some ⟨"", true⟩)) "" .netError =
      ⟨ServiceB.writeErrorResponse "can not find zipcode" 404, false⟩ :=
  notfound_flag_yields_404 "99999999" "" (some (.obj [("cep", .str "99999999")]))
    "" .netError (by decide) (by decide)

/-- C6: whenever location resolution succeeds but the weather lookup fails
for any reason — network error, non-success provider status, or decode
failure of the provider body — the weather handler replies 500
"internal server error". -/
theorem weather_failure_yields_500 (cep location : String) (rawBody : Option JSONVal)
    (viaCEP : HTTPOutcome ServiceB.ViaCEPResponse)
    (weatherAPIKey : String) (wAPI : HTTPOutcome ServiceB.WeatherAPIResponse)
    (hbody : decodeCEPRequest rawBody = some cep)
    (hcep : ServiceB.isValidCEP cep = true)
    (hloc : ServiceB.getLocationFromCEP viaCEP = .ok location)
    (hkey : ¬(weatherAPIKey = "" ∨ weatherAPIKey = "your_weather_api_key_here"))
    (hfail : wAPI = .netError ∨ ∃ s d, wAPI = .response s d ∧ (s ≠ 200 ∨ d = none)) :
    ServiceB.handleWeather "POST" rawBody viaCEP weatherAPIKey wAPI =
      ⟨ServiceB.writeErrorResponse "internal server error" 500, true⟩ := by
  obtain ⟨msg, hmsg⟩ := getWeatherFromAPI_fails weatherAPIKey location wAPI hkey hfail
  unfold ServiceB.handleWeather
  rw [if_neg (by decide)]
  simp only [hbody]
  rw [if_neg (by simp [hcep])]
  simp only [hloc, hmsg]

theorem weather_failure_yields_500_witness :
    ServiceB.handleWeather "POST" (some (.obj [("cep", .str "01001000")]))
        (.response 200 (some ⟨"São Paulo", false⟩)) "k" (.response 500 none) =
      ⟨ServiceB.writeErrorResponse "internal server error" 500, true⟩ :=
  weather_failure_yields_500 "01001000" "São Paulo"
    (some (.obj [("cep", .str "01001000")]))
    (.response 200 (some ⟨"São Paulo", false⟩)) "k" (.response 500 none)
    (by decide) (by decide) rfl (by decide)
    (Or.inr ⟨500, none, rfl, Or.inl (by decide)⟩)

/-- C7: for every POST body that parses but whose code fails the 8-digit
rule (for example "123"), the Gateway replies 422 "invalid zipcode" and
issues no downstream call to the Resolver. -/
theorem gateway_invalid_cep_422 (cep : String) (rawBody : Option JSONVal)
    (downstream : Option ServiceA.ResolverResponse)
    (hbody : decodeCEPRequest rawBody = some cep)
    (hcep : ServiceA.isValidCEP cep = false) :
    ServiceA.handleCEP "POST" rawBody downstream =
      ⟨ServiceA.writeErrorResponse "invalid zipcode" 422, false⟩ := by
  unfold ServiceA.handleCEP
  rw [if_neg (by decide)]
  simp only [hbody]
  rw [if_pos (by simp [hcep])]

theorem gateway_invalid_cep_422_witness :
    ServiceA.handleCEP "POST" (some (.obj [("cep", .str "123")])) none =
      ⟨ServiceA.writeErrorResponse "invalid zipcode" 422, false⟩ :=
  gateway_invalid_cep_422 "123" (some (.obj [("cep", .str "123")])) none
    (by decide) (by decide)

/-- C8: every response the Resolver produces for the Gateway's downstream
call (which is always a POST) is relayed to the client unchanged — the same
status code, the same content-type (every such Resolver response carries
"application/json", which is exactly what the relay writes), and the
identical body bytes, with the payload treated as opaque bytes (`enc` is
the serialization of the Resolver's reply body to the bytes on the wire). -/
theorem gateway_relays_resolver_response (rawBody : Option JSONVal)
    (viaCEP : HTTPOutcome ServiceB.ViaCEPResponse) (weatherAPIKey : String)
    (wAPI : HTTPOutcome ServiceB.WeatherAPIResponse)
    (enc : ServiceB.RespBody → String) :
    ServiceA.forwardToServiceB
        ⟨(ServiceB.handleWeather "POST" rawBody viaCEP weatherAPIKey wAPI).reply.status,
         (ServiceB.handleWeather "POST" rawBody viaCEP weatherAPIKey wAPI).reply.contentType,
         enc (ServiceB.handleWeather "POST" rawBody viaCEP weatherAPIKey wAPI).reply.body⟩ =
      ⟨(ServiceB.handleWeather "POST" rawBody viaCEP weatherAPIKey wAPI).reply.status,
       (ServiceB.handleWeather "POST" rawBody viaCEP weatherAPIKey wAPI).reply.contentType,
       .relayed (enc (ServiceB.handleWeather "POST" rawBody viaCEP weatherAPIKey wAPI).reply.body)⟩ := by
  have hct := handleWeather_post_contentType rawBody viaCEP weatherAPIKey wAPI
  rw [hct]
  rfl

/-- C9, counterexample: a success (status 200) reply whose city field is the
empty string — the location provider decoded to a response with empty
`localidade` and unset `erro`, so the resolved city is "" and the mock
weather branch passes it through; the WeatherResult non-empty-city
invariant is not enforced by the code. -/
theorem success_with_empty_city :
    (ServiceB.handleWeather "POST" (some (.obj [("cep", .str "01001000")]))
        (.response 200 (some ⟨"", false⟩)) "" .netError).reply.status = 200 ∧
    (ServiceB.handleWeather "POST" (some (.obj [("cep", .str "01001000")]))
        (.response 200 (some ⟨"", false⟩)) "" .netError).reply.body =
      .weatherJSON ⟨"", 22.5, 72.5, 295.65⟩ := by
  have h1 : ServiceB.celsiusToFahrenheit 22.5 = 72.5 := by
    norm_num [ServiceB.celsiusToFahrenheit]
  have h2 : ServiceB.celsiusToKelvin 22.5 = 295.65 := by
    norm_num [ServiceB.celsiusToKelvin]
  refine ⟨rfl, ?_⟩
  have base : (ServiceB.handleWeather "POST" (some (.obj [("cep", .str "01001000")]))
      (.response 200 (some ⟨"", false⟩)) "" .netError).reply.body =
      .weatherJSON ⟨"", 22.5, ServiceB.celsiusToFahrenheit 22.5,
        ServiceB.celsiusToKelvin 22.5⟩ := rfl
  rw [base, h1, h2]

/-- C9, amended: every success (status 200) reply of the weather handler
satisfies the temperature-consistency invariant — temp_F is the Fahrenheit
conversion of temp_C and temp_K the Kelvin conversion of temp_C (in both
the real-provider branch, where the provider's own Fahrenheit reading is
discarded, and the mock branch) — while the city field is the
resolved/provider-reported name, which may be empty. -/
theorem success_reply_temperature_invariant (method : String) (rawBody : Option JSONVal)
    (viaCEP : HTTPOutcome ServiceB.ViaCEPResponse) (weatherAPIKey : String)
    (wAPI : HTTPOutcome ServiceB.WeatherAPIResponse) (st : Nat) (ct : String)
    (w : ServiceB.WeatherResponse) (inv : Bool)
    (h : ServiceB.handleWeather method rawBody viaCEP weatherAPIKey wAPI =
      ⟨⟨st, ct, .weatherJSON w⟩, inv⟩) :
    st = 200 ∧ w.tempF = ServiceB.celsiusToFahrenheit w.tempC ∧
    w.tempK = ServiceB.celsiusToKelvin w.tempC := by
  unfold ServiceB.handleWeather at h
  split at h
  · simp [ServiceB.WeatherHandlerResult.mk.injEq, ServiceB.HTTPReply.mk.injEq] at h
  · split at h
    · simp [ServiceB.writeErrorResponse, ServiceB.WeatherHandlerResult.mk.injEq,
        ServiceB.HTTPReply.mk.injEq] at h
    · split at h
      · simp [ServiceB.writeErrorResponse, ServiceB.WeatherHandlerResult.mk.injEq,
          ServiceB.HTTPReply.mk.injEq] at h
      · split at h
        · split at h
          · simp [ServiceB.writeErrorResponse, ServiceB.WeatherHandlerResult.mk.injEq,
              ServiceB.HTTPReply.mk.injEq] at h
          · simp [ServiceB.writeErrorResponse, ServiceB.WeatherHandlerResult.mk.injEq,
              ServiceB.HTTPReply.mk.injEq] at h
        · split at h
          · simp [ServiceB.writeErrorResponse, ServiceB.WeatherHandlerResult.mk.injEq,
              ServiceB.HTTPReply.mk.injEq] at h
          · next weather heq =>
            simp only [ServiceB.WeatherHandlerResult.mk.injEq,
              ServiceB.HTTPReply.mk.injEq,
              ServiceB.RespBody.weatherJSON.injEq] at h
            obtain ⟨⟨hst, hct, hw⟩, hinv⟩ := h
            subst hst
            subst hw
            exact ⟨rfl, getWeatherFromAPI_ok_inv _ _ _ _ heq⟩

theorem success_reply_temperature_invariant_witness :
    (200 : Nat) = 200 ∧
    (⟨"São Paulo", 22.5, 72.5, 295.65⟩ : ServiceB.WeatherResponse).tempF =
      ServiceB.celsiusToFahrenheit
        (⟨"São Paulo", 22.5, 72.5, 295.65⟩ : ServiceB.WeatherResponse).tempC ∧
    (⟨"São Paulo", 22.5, 72.5, 295.65⟩ : ServiceB.WeatherResponse).tempK =
      ServiceB.celsiusToKelvin
        (⟨"São Paulo", 22.5, 72.5, 295.65⟩ : ServiceB.WeatherResponse).tempC :=
  success_reply_temperature_invariant "POST" (some (.obj [("cep", .str "01001000")]))
    (.response 200 (some ⟨"São Paulo", false⟩)) "" .netError 200 "application/json"
    ⟨"São Paulo", 22.5, 72.5, 295.65⟩ true (by
      have h1 : ServiceB.celsiusToFahrenheit 22.5 = 72.5 := by
        norm_num [ServiceB.celsiusToFahrenheit]
      have h2 : ServiceB.celsiusToKelvin 22.5 = 295.65 := by
        norm_num [ServiceB.celsiusToKelvin]
      have base : ServiceB.handleWeather "POST"
          (some (.obj [("cep", .str "01001000")]))
          (.response 200 (some ⟨"São Paulo", false⟩)) "" .netError =
          ⟨⟨200, "application/json", .weatherJSON
            ⟨"São Paulo", 22.5, ServiceB.celsiusToFahrenheit 22.5,
             ServiceB.celsiusToKelvin 22.5⟩⟩, true⟩ := rfl
      rw [h1, h2] at base
      exact base)

/-- Helper: a JSON object none of whose fields carries a usable code — each
key either does not match the `cep` field (under Go's case-insensitive
field matching) or holds the empty string or null — decodes to the empty
code. -/
theorem decodeCEPFields_no_usable_code (fields : List (String × JSONVal))
    (h : ∀ kv ∈ fields,
      matchesCEPField kv.1 = false ∨ kv.2 = .str "" ∨ kv.2 = .null) :
    decodeCEPFields fields "" = some "" := by
  induction fields with
  | nil => rfl
  | cons kv rest ih =>
    obtain ⟨k, v⟩ := kv
    have hrest : decodeCEPFields rest "" = some "" :=
      ih fun x hx => h x (List.mem_cons_of_mem _ hx)
    rcases h (k, v) (List.mem_cons_self _ _) with hm | hv | hv
    · simp only [decodeCEPFields]
      rw [if_neg (by simp [hm])]
      exact hrest
    · subst hv
      simp only [decodeCEPFields]
      by_cases hm : matchesCEPField k = true
      · rw [if_pos hm]
        exact hrest
      · rw [if_neg hm]
        exact hrest
    · subst hv
      simp only [decodeCEPFields]
      by_cases hm : matchesCEPField k = true
      · rw [if_pos hm]
        exact hrest
      · rw [if_neg hm]
        exact hrest

/-- C10: a request body that is valid JSON of the expected object shape but
lacks a usable code — the empty object, or an object in which no key
matches the cep field under Go's case-insensitive field matching, or whose
matching keys hold only the empty string (or null, which leaves the field
at its zero value) — gets the format-validation outcome 422
"invalid zipcode" from both the Gateway and the Resolver, and in both
services the 400 "invalid request body" reply is produced exactly when JSON
decoding of the body fails. -/
theorem empty_or_missing_cep_maps_to_422 (fields : List (String × JSONVal))
    (downstream : Option ServiceA.ResolverResponse)
    (viaCEP : HTTPOutcome ServiceB.ViaCEPResponse) (weatherAPIKey : String)
    (wAPI : HTTPOutcome ServiceB.WeatherAPIResponse)
    (h : ∀ kv ∈ fields,
      matchesCEPField kv.1 = false ∨ kv.2 = .str "" ∨ kv.2 = .null) :
    ServiceA.handleCEP "POST" (some (.obj fields)) downstream =
      ⟨ServiceA.writeErrorResponse "invalid zipcode" 422, false⟩ ∧
    ServiceB.handleWeather "POST" (some (.obj fields)) viaCEP weatherAPIKey wAPI =
      ⟨ServiceB.writeErrorResponse "invalid zipcode" 422, false⟩ ∧
    (∀ rawBody : Option JSONVal,
      (ServiceA.handleCEP "POST" rawBody downstream).reply =
          ServiceA.writeErrorResponse "invalid request body" 400 ↔
        decodeCEPRequest rawBody = none) ∧
    (∀ rawBody : Option JSONVal,
      (ServiceB.handleWeather "POST" rawBody viaCEP weatherAPIKey wAPI).reply =
          ServiceB.writeErrorResponse "invalid request body" 400 ↔
        decodeCEPRequest rawBody = none) := by
  have hdec : decodeCEPRequest (some (.obj fields)) = some "" := by
    show decodeCEPFields fields "" = some ""
    exact decodeCEPFields_no_usable_code fields h
  refine ⟨?_, ?_, ?_, ?_⟩
  · unfold ServiceA.handleCEP
    rw [if_neg (by decide)]
    simp only [hdec]
    rw [if_pos (by decide)]
  · unfold ServiceB.handleWeather
    rw [if_neg (by decide)]
    simp only [hdec]
    rw [if_pos (by decide)]
  · intro rawBody
    constructor
    · intro hr
      cases hdec2 : decodeCEPRequest rawBody with
      | none => rfl
      | some cep =>
        exfalso
        unfold ServiceA.handleCEP at hr
        rw [if_neg (by decide)] at hr
        simp only [hdec2] at hr
        by_cases hv : ServiceA.isValidCEP cep = true
        · rw [if_neg (by simp [hv])] at hr
          cases downstream with
          | none =>
            simp [ServiceA.writeErrorResponse, ServiceA.GatewayResult.mk.injEq,
              ServiceA.GatewayReply.mk.injEq] at hr
          | some resp =>
            simp [ServiceA.forwardToServiceB, ServiceA.writeErrorResponse,
              ServiceA.GatewayResult.mk.injEq, ServiceA.GatewayReply.mk.injEq] at hr
        · rw [if_pos hv] at hr
          simp [ServiceA.writeErrorResponse, ServiceA.GatewayResult.mk.injEq,
            ServiceA.GatewayReply.mk.injEq] at hr
    · intro hdec2
      unfold ServiceA.handleCEP
      rw [if_neg (by decide)]
      simp only [hdec2]
  · intro rawBody
    constructor
    · intro hr
      cases hdec2 : decodeCEPRequest rawBody with
      | none => rfl
      | some cep =>
        exfalso
        unfold ServiceB.handleWeather at hr
        rw [if_neg (by decide)] at hr
        simp only [hdec2] at hr
        by_cases hv : ServiceB.isValidCEP cep = true
        · rw [if_neg (by simp [hv])] at hr
          split at hr
          · split at hr
            · simp [ServiceB.writeErrorResponse, ServiceB.WeatherHandlerResult.mk.injEq,
                ServiceB.HTTPReply.mk.injEq] at hr
            · simp [ServiceB.writeErrorResponse, ServiceB.WeatherHandlerResult.mk.injEq,
                ServiceB.HTTPReply.mk.injEq] at hr
          · split at hr
            · simp [ServiceB.writeErrorResponse, ServiceB.WeatherHandlerResult.mk.injEq,
                ServiceB.HTTPReply.mk.injEq] at hr
            · simp [ServiceB.writeErrorResponse, ServiceB.WeatherHandlerResult.mk.injEq,
                ServiceB.HTTPReply.mk.injEq] at hr
        · rw [if_pos hv] at hr
          simp [ServiceB.writeErrorResponse, ServiceB.WeatherHandlerResult.mk.injEq,
            ServiceB.HTTPReply.mk.injEq] at hr
    · intro hdec2
      unfold ServiceB.handleWeather
      rw [if_neg (by decide)]
      simp only [hdec2]

theorem empty_or_missing_cep_maps_to_422_witness :
    (ServiceA.handleCEP "POST" (some (.obj [])) none =
      ⟨ServiceA.writeErrorResponse "invalid zipcode" 422, false⟩ ∧
    ServiceB.handleWeather "POST" (some (.obj [])) .netError "" .netError =
      ⟨ServiceB.writeErrorResponse "invalid zipcode" 422, false⟩ ∧
    (∀ rawBody : Option JSONVal,
      (ServiceA.handleCEP "POST" rawBody none).reply =
          ServiceA.writeErrorResponse "invalid request body" 400 ↔
        decodeCEPRequest rawBody = none) ∧
    (∀ rawBody : Option JSONVal,
      (ServiceB.handleWeather "POST" rawBody .netError "" .netError).reply =
          ServiceB.writeErrorResponse "invalid request body" 400 ↔
        decodeCEPRequest rawBody = none)) :=
  empty_or_missing_cep_maps_to_422 [] none .netError "" .netError (by simp)

end GolangMvpOtel
